import Mathlib

/-!
Shallow embedding of the `acg_image_search` plugin core
(`src/__init__.py` of XG2020/acg_image_search).

The module's pure logic (`adjust_tags`, the validation checks, the
response parsing of `fetch_image_data`, the size check of
`download_image`, and the retry loop of `acg_image_search`) is
translated directly.  Network effects (`httpx` POST/GET) are modelled
by an explicit `World`: a pair of oracles, indexed by the attempt
number, giving the response (or raised exception) of each request.
Raised-and-caught Python exceptions are the `PyExn` type; the bytes
type is `List Nat`; `str.encode()` is a literal UTF-8 encoder.
-/

set_option maxRecDepth 100000

namespace AcgSearch

/-- Bytes of a Python `bytes` value, one `Nat` (0..255) per byte. -/
abbrev Bytes := List Nat

/-- Python whitespace stripped by `str.strip()` (ASCII part). -/
def isPySpace (c : Char) : Bool :=
  c = ' ' || c = '\t' || c = '\n' || c = '\x0d' || c = '\x0b' || c = '\x0c'

/-- Python `s.strip()`: drop leading and trailing whitespace. -/
def pyStrip (s : String) : String :=
  String.mk (((s.data.dropWhile isPySpace).reverse.dropWhile isPySpace).reverse)

/-- Python `s.startswith(pre)`. -/
def pyStartsWith (s pre : String) : Bool :=
  pre.data.isPrefixOf s.data

/-- UTF-8 encoding of one character, as Python `str.encode()` produces it. -/
def utf8EncodeChar (c : Char) : List Nat :=
  let n := c.toNat
  if n < 0x80 then [n]
  else if n < 0x800 then
    [0xC0 ||| (n >>> 6), 0x80 ||| (n &&& 0x3F)]
  else if n < 0x10000 then
    [0xE0 ||| (n >>> 12), 0x80 ||| ((n >>> 6) &&& 0x3F), 0x80 ||| (n &&& 0x3F)]
  else
    [0xF0 ||| (n >>> 18), 0x80 ||| ((n >>> 12) &&& 0x3F),
      0x80 ||| ((n >>> 6) &&& 0x3F), 0x80 ||| (n &&& 0x3F)]

/-- Python `s.encode()`: UTF-8 bytes of the string. -/
def strEncode (s : String) : Bytes :=
  s.data.flatMap utf8EncodeChar

/-- Plugin configuration (`AcgImageConfig`); only the fields the core
logic reads.  `API_URL` and `TIMEOUT` never influence control flow. -/
structure Config where
  R18_ENABLED : Bool
  MAX_TAGS : Nat
  MAX_RETRIES : Nat
deriving DecidableEq

/-- Body of the POST sent by `fetch_image_data` (the `params` dict). -/
structure SearchParams where
  r18 : Nat
  num : Nat
  tag : List String
  size : String
deriving DecidableEq

/-- One element of the provider's `data` array.  `urlsOriginal = none`
models the `urls`/`original` path being structurally absent, which in
the Python code raises `KeyError`. -/
structure ApiItem where
  urlsOriginal : Option String
deriving DecidableEq

/-- Parsed JSON body of the search response. `data = none` models an
absent (or JSON-null) `data` field. -/
structure ApiResponse where
  data : Option (List ApiItem)
deriving DecidableEq

/-- The exceptions the orchestrator's `try` block catches, in the order
of its `except` clauses: `httpx.RequestError`, `httpx.HTTPStatusError`,
`KeyError`, any other `Exception`. -/
inductive PyExn where
  | requestError (msg : String)
  | httpStatusError (status : Nat)
  | keyError (key : String)
  | other (msg : String)
deriving DecidableEq

/-- Network oracles: for attempt number `i`, `post i params` is what the
search POST yields (a parsed response or a raised exception) and
`get i url` is what the image GET yields (raw body bytes or a raised
exception). -/
structure World where
  post : Nat → SearchParams → Except PyExn ApiResponse
  get : Nat → String → Except PyExn Bytes

/-- The `params` dict built by `fetch_image_data`
(src/__init__.py lines 65-70). -/
def query_request (cfg : Config) (tags : List String) : SearchParams :=
  { r18 := if cfg.R18_ENABLED then 2 else 0
    num := 1
    tag := tags
    size := "original" }

/-- Translation of `fetch_image_data` (src/__init__.py lines 51-81).
Returns the single POST request it sends together with its outcome:
the `params` dict is built, one POST is issued; an absent or empty
`data` array yields `none` (Python `None`); otherwise the first item's
`urls.original` is extracted, a structurally absent field raising
`KeyError`. -/
def fetch_image_data (cfg : Config) (tags : List String)
    (post : SearchParams → Except PyExn ApiResponse) :
    SearchParams × Except PyExn (Option String) :=
  let params : SearchParams := query_request cfg tags
  (params,
    match post params with
    | .error e => .error e
    | .ok resp =>
      match resp.data with
      | none => .ok none
      | some [] => .ok none
      | some (item :: _) =>
        match item.urlsOriginal with
        | none => .error (.keyError "original")
        | some url => .ok (some url))

/-- Translation of `download_image` (src/__init__.py lines 83-104):
given the outcome of the GET, propagate a raised exception; on a
response, return `none` (Python `None`) when the content is empty or
shorter than 1024 bytes, else the content itself. -/
def download_image (response : Except PyExn Bytes) :
    Except PyExn (Option Bytes) :=
  match response with
  | .error e => .error e
  | .ok content =>
    if content.length = 0 ∨ content.length < 1024 then .ok none
    else .ok (some content)

/-- Translation of `adjust_tags` (src/__init__.py lines 106-120). -/
def adjust_tags (tags : List String) (attempt : Nat) : List String :=
  if tags.length ≤ 1 then tags
  else tags.take (max 1 (tags.length - attempt))

/-- Translation of `clean_tags = [t.strip() for t in tags if t.strip()]`
(src/__init__.py line 152). -/
def clean_tags (tags : List String) : List String :=
  tags.filterMap (fun t => if pyStrip t = "" then none else some (pyStrip t))

/-- The `last_error` message each `except` clause of `acg_image_search`
records (src/__init__.py lines 174-184). -/
def caught_message : PyExn → String
  | .requestError m => "图片搜索请求失败: " ++ m
  | .httpStatusError code => "图片搜索HTTP错误: " ++ toString code
  | .keyError k => "图片数据解析错误: " ++ k
  | .other m => "图片搜索未知错误: " ++ m

/-- Outcome of one iteration of the retry loop. -/
inductive AttemptResult where
  | success (payload : Bytes)
  | noMatch
  | invalidPayload
  | errorCaught (msg : String)
deriving DecidableEq

/-- Requests one loop iteration issued: the POST body it sent, and the
GET it issued (if the attempt reached `download_image`). -/
structure AttemptTrace where
  postReq : SearchParams
  getReq : Option String
deriving DecidableEq

/-- One iteration of the `for attempt in range(...)` body of
`acg_image_search` (src/__init__.py lines 156-184): adjust the tags,
fetch the image URL, then — if a non-empty URL came back — either
download it (URLs starting with `http`) or encode it inline; classify
the outcome exactly as the Python control flow does (`continue` on a
falsy URL or falsy payload, exception caught into `last_error`). -/
def run_attempt (cfg : Config) (w : World) (attempt : Nat)
    (clean : List String) : AttemptResult × AttemptTrace :=
  let fetched := fetch_image_data cfg (adjust_tags clean attempt) (w.post attempt)
  let outcome : AttemptResult × Option String :=
    match fetched.2 with
    | .error e => (.errorCaught (caught_message e), none)
    | .ok none => (.noMatch, none)
    | .ok (some url) =>
      if url = "" then (.noMatch, none)
      else if pyStartsWith url "http" then
        (match download_image (w.get attempt url) with
          | .error e => .errorCaught (caught_message e)
          | .ok none => .invalidPayload
          | .ok (some b) =>
            if b.length = 0 then .invalidPayload else .success b,
          some url)
      else
        (if (strEncode url).length = 0 then .invalidPayload
          else .success (strEncode url),
          none)
  (outcome.1, { postReq := fetched.1, getReq := outcome.2 })

/-- What a call to `acg_image_search` produces: returned image bytes, the
implicit Python `None` when the loop finishes without returning, or a
raised `ValueError`. -/
inductive SearchResult where
  | ok (payload : Bytes)
  | noneReturned
  | validationError (msg : String)
deriving DecidableEq

/-- The retry loop of `acg_image_search` (src/__init__.py lines
153-184), by remaining iterations (`fuel`), current `attempt` index and
accumulated `last_error`.  When the range is exhausted the Python
function falls off the loop and implicitly returns `None`
(`noneReturned`) — `last_error` is dropped, as in the source.  The
second component is the trace of attempts actually executed. -/
def search_loop (cfg : Config) (w : World) (clean : List String) :
    Nat → Nat → String → SearchResult × List AttemptTrace
  | 0, _, _ => (.noneReturned, [])
  | fuel + 1, attempt, last_error =>
    let step := run_attempt cfg w attempt clean
    match step.1 with
    | .success payload => (.ok payload, [step.2])
    | .noMatch =>
      let rest := search_loop cfg w clean fuel (attempt + 1) last_error
      (rest.1, step.2 :: rest.2)
    | .invalidPayload =>
      let rest := search_loop cfg w clean fuel (attempt + 1) last_error
      (rest.1, step.2 :: rest.2)
    | .errorCaught msg =>
      let rest := search_loop cfg w clean fuel (attempt + 1) msg
      (rest.1, step.2 :: rest.2)

/-- Translation of `acg_image_search` (src/__init__.py lines 127-184):
the two `ValueError` guards on the *original* `tags` list, then the
cleaned tag list, then the retry loop over
`range(config.MAX_RETRIES + 1)` starting from `last_error = ""`. -/
def acg_image_search (cfg : Config) (w : World) (tags : List String) :
    SearchResult × List AttemptTrace :=
  if tags = [] then (.validationError "至少需要提供一个搜索标签", [])
  else if cfg.MAX_TAGS < tags.length then
    (.validationError ("最多支持" ++ toString cfg.MAX_TAGS ++ "个标签同时搜索"), [])
  else
    search_loop cfg w (clean_tags tags) (cfg.MAX_RETRIES + 1) 0 ""

/-- Holds when a search POST outcome is a well-formed response whose
`data` array is absent or empty — the provider's no-match answer. -/
def respNoMatch : Except PyExn ApiResponse → Bool
  | .ok resp =>
    match resp.data with
    | none => true
    | some [] => true
    | some (_ :: _) => false
  | .error _ => false

/-- Tests whether a call result is a raised `ValueError`. -/
def SearchResult.isValidationError : SearchResult → Bool
  | .validationError _ => true
  | _ => false

/-! Concrete configurations and worlds used to exercise the model. -/

/-- The default configuration of `AcgImageConfig`: R18 off, at most 3
tags, 3 retries. -/
def cfgDefault : Config :=
  { R18_ENABLED := false, MAX_TAGS := 3, MAX_RETRIES := 3 }

/-- A world whose every search response has an empty `data` array. -/
def wNoMatch : World :=
  { post := fun _ _ => .ok { data := some [] }
    get := fun _ _ => .error (.other "unreachable") }

/-- A world whose every POST raises a network error. -/
def wAllErr : World :=
  { post := fun _ _ => .error (.requestError "connection refused")
    get := fun _ _ => .error (.other "unreachable") }

/-- A world whose every search response has a non-empty `data` array
whose first item lacks the `urls.original` field. -/
def wBadShape : World :=
  { post := fun _ _ => .ok { data := some [{ urlsOriginal := none }] }
    get := fun _ _ => .error (.other "unreachable") }

/-- A world that always resolves the locator `inline-token` (not a
network address). -/
def wInline : World :=
  { post := fun _ _ => .ok { data := some [{ urlsOriginal := some "inline-token" }] }
    get := fun _ _ => .error (.other "unreachable") }

/-- A 1024-byte image body. -/
def bigImage : Bytes := List.replicate 1024 7

/-- A world that always resolves an `http` locator whose GET returns a
1024-byte body. -/
def wGood : World :=
  { post := fun _ _ => .ok { data := some [{ urlsOriginal := some "http://img.example/a.jpg" }] }
    get := fun _ _ => .ok bigImage }

/-- A world that always resolves an `http` locator whose GET returns a
10-byte body (below the minimum-valid-size threshold). -/
def wSmall : World :=
  { post := fun _ _ => .ok { data := some [{ urlsOriginal := some "http://img.example/a.jpg" }] }
    get := fun _ _ => .ok (List.replicate 10 1) }

/-- A world whose every POST raises an HTTP 404 status error. -/
def wHttpErr : World :=
  { post := fun _ _ => .error (.httpStatusError 404)
    get := fun _ _ => .error (.other "unreachable") }

/-- A world that always resolves an `http` locator whose GET raises a
network error. -/
def wGetErr : World :=
  { post := fun _ _ => .ok { data := some [{ urlsOriginal := some "http://img.example/a.jpg" }] }
    get := fun _ _ => .error (.requestError "read timeout") }

/-- A configuration with `MAX_RETRIES = 1`, i.e. two attempts. -/
def cfgTwoAttempts : Config :=
  { R18_ENABLED := false, MAX_TAGS := 3, MAX_RETRIES := 1 }

end AcgSearch

namespace AcgSearch

/-! Basic lemmas about the embedded functions. -/

lemma adjust_tags_zero (tags : List String) : adjust_tags tags 0 = tags := by
  unfold adjust_tags
  by_cases h : tags.length ≤ 1
  · simp [h]
  · have h2 : 1 ≤ tags.length := by omega
    simp only [if_neg h, Nat.sub_zero]
    rw [Nat.max_eq_right h2, List.take_length]

lemma fetch_image_data_fst (cfg : Config) (tags : List String)
    (post : SearchParams → Except PyExn ApiResponse) :
    (fetch_image_data cfg tags post).1 = query_request cfg tags := rfl

lemma run_attempt_postReq (cfg : Config) (w : World) (i : Nat)
    (clean : List String) :
    (run_attempt cfg w i clean).2.postReq = query_request cfg (adjust_tags clean i) := rfl

lemma fetch_image_data_noMatch (cfg : Config) (tags : List String)
    (post : SearchParams → Except PyExn ApiResponse)
    (h : respNoMatch (post (query_request cfg tags)) = true) :
    (fetch_image_data cfg tags post).2 = .ok none := by
  unfold respNoMatch at h
  simp only [fetch_image_data]
  cases hp : post (query_request cfg tags) with
  | error e => rw [hp] at h; simp at h
  | ok resp =>
    rw [hp] at h
    cases hd : resp.data with
    | none => simp [hd]
    | some l =>
      cases l with
      | nil => simp [hd]
      | cons it r => simp [hd] at h

lemma run_attempt_noMatch (cfg : Config) (w : World) (i : Nat)
    (clean : List String)
    (h : respNoMatch (w.post i (query_request cfg (adjust_tags clean i))) = true) :
    (run_attempt cfg w i clean).1 = .noMatch := by
  have hf := fetch_image_data_noMatch cfg (adjust_tags clean i) (w.post i) h
  simp only [run_attempt]
  rw [hf]

/-! One-step unfolding lemmas for the retry loop. -/

lemma search_loop_success_step (cfg : Config) (w : World) (clean : List String)
    (fuel i : Nat) (last : String) (p : Bytes)
    (h : (run_attempt cfg w i clean).1 = .success p) :
    search_loop cfg w clean (fuel + 1) i last =
      (.ok p, [(run_attempt cfg w i clean).2]) := by
  simp only [search_loop]
  rw [h]

lemma search_loop_noMatch_step (cfg : Config) (w : World) (clean : List String)
    (fuel i : Nat) (last : String)
    (h : (run_attempt cfg w i clean).1 = .noMatch) :
    search_loop cfg w clean (fuel + 1) i last =
      ((search_loop cfg w clean fuel (i + 1) last).1,
        (run_attempt cfg w i clean).2 ::
          (search_loop cfg w clean fuel (i + 1) last).2) := by
  simp only [search_loop]
  rw [h]

lemma search_loop_invalid_step (cfg : Config) (w : World) (clean : List String)
    (fuel i : Nat) (last : String)
    (h : (run_attempt cfg w i clean).1 = .invalidPayload) :
    search_loop cfg w clean (fuel + 1) i last =
      ((search_loop cfg w clean fuel (i + 1) last).1,
        (run_attempt cfg w i clean).2 ::
          (search_loop cfg w clean fuel (i + 1) last).2) := by
  simp only [search_loop]
  rw [h]

lemma search_loop_error_step (cfg : Config) (w : World) (clean : List String)
    (fuel i : Nat) (last : String) (m : String)
    (h : (run_attempt cfg w i clean).1 = .errorCaught m) :
    search_loop cfg w clean (fuel + 1) i last =
      ((search_loop cfg w clean fuel (i + 1) m).1,
        (run_attempt cfg w i clean).2 ::
          (search_loop cfg w clean fuel (i + 1) m).2) := by
  simp only [search_loop]
  rw [h]

lemma search_loop_all_noMatch (cfg : Config) (w : World) (clean : List String)
    (h : ∀ i, (run_attempt cfg w i clean).1 = .noMatch) :
    ∀ fuel i last,
      (search_loop cfg w clean fuel i last).1 = .noneReturned ∧
      (search_loop cfg w clean fuel i last).2.length = fuel := by
  intro fuel
  induction fuel with
  | zero => intro i last; exact ⟨rfl, rfl⟩
  | succ n ih =>
    intro i last
    rw [search_loop_noMatch_step cfg w clean n i last (h i)]
    refine ⟨(ih (i + 1) last).1, ?_⟩
    simp [(ih (i + 1) last).2]

lemma fetch_image_data_error_post (cfg : Config) (tags : List String)
    (post : SearchParams → Except PyExn ApiResponse) (e : PyExn)
    (hp : post (query_request cfg tags) = .error e) :
    (fetch_image_data cfg tags post).2 = .error e := by
  simp only [fetch_image_data]
  rw [hp]

lemma fetch_image_data_keyError (cfg : Config) (tags : List String)
    (post : SearchParams → Except PyExn ApiResponse) (resp : ApiResponse)
    (item : ApiItem) (rest : List ApiItem)
    (hp : post (query_request cfg tags) = .ok resp)
    (hd : resp.data = some (item :: rest))
    (hu : item.urlsOriginal = none) :
    (fetch_image_data cfg tags post).2 = .error (.keyError "original") := by
  simp only [fetch_image_data]
  rw [hp]
  simp [hd, hu]

lemma fetch_image_data_some (cfg : Config) (tags : List String)
    (post : SearchParams → Except PyExn ApiResponse) (resp : ApiResponse)
    (item : ApiItem) (rest : List ApiItem) (url : String)
    (hp : post (query_request cfg tags) = .ok resp)
    (hd : resp.data = some (item :: rest))
    (hu : item.urlsOriginal = some url) :
    (fetch_image_data cfg tags post).2 = .ok (some url) := by
  simp only [fetch_image_data]
  rw [hp]
  simp [hd, hu]

lemma run_attempt_error_fetch (cfg : Config) (w : World) (i : Nat)
    (clean : List String) (e : PyExn)
    (hf : (fetch_image_data cfg (adjust_tags clean i) (w.post i)).2 = .error e) :
    (run_attempt cfg w i clean).1 = .errorCaught (caught_message e) := by
  simp only [run_attempt]
  rw [hf]

lemma run_attempt_success_download (cfg : Config) (w : World) (i : Nat)
    (clean : List String) (url : String) (content : Bytes)
    (hfetch : (fetch_image_data cfg (adjust_tags clean i) (w.post i)).2 = .ok (some url))
    (hne : url ≠ "") (hhttp : pyStartsWith url "http" = true)
    (hget : w.get i url = .ok content) (hbig : 1024 ≤ content.length) :
    run_attempt cfg w i clean =
      (.success content,
        { postReq := query_request cfg (adjust_tags clean i), getReq := some url }) := by
  have hvalid : ¬(content.length = 0 ∨ content.length < 1024) := by omega
  have hlen : ¬(content.length = 0) := by omega
  simp only [run_attempt]
  rw [hfetch]
  simp only [download_image, hget, if_neg hne, if_pos hhttp, if_neg hvalid, if_neg hlen]
  rfl

lemma run_attempt_invalid_download (cfg : Config) (w : World) (i : Nat)
    (clean : List String) (url : String) (content : Bytes)
    (hfetch : (fetch_image_data cfg (adjust_tags clean i) (w.post i)).2 = .ok (some url))
    (hne : url ≠ "") (hhttp : pyStartsWith url "http" = true)
    (hget : w.get i url = .ok content) (hsmall : content.length < 1024) :
    (run_attempt cfg w i clean).1 = .invalidPayload := by
  have hinval : content.length = 0 ∨ content.length < 1024 := Or.inr hsmall
  simp only [run_attempt]
  rw [hfetch]
  simp only [download_image, hget, if_neg hne, if_pos hhttp, if_pos hinval]

lemma run_attempt_error_get (cfg : Config) (w : World) (i : Nat)
    (clean : List String) (url : String) (e : PyExn)
    (hfetch : (fetch_image_data cfg (adjust_tags clean i) (w.post i)).2 = .ok (some url))
    (hne : url ≠ "") (hhttp : pyStartsWith url "http" = true)
    (hget : w.get i url = .error e) :
    (run_attempt cfg w i clean).1 = .errorCaught (caught_message e) := by
  simp only [run_attempt]
  rw [hfetch]
  simp only [download_image, hget, if_neg hne, if_pos hhttp]

lemma search_loop_no_validation (cfg : Config) (w : World) (clean : List String) :
    ∀ fuel i last, ((search_loop cfg w clean fuel i last).1).isValidationError = false := by
  intro fuel
  induction fuel with
  | zero => intro i last; rfl
  | succ n ih =>
    intro i last
    cases hr : (run_attempt cfg w i clean).1 with
    | success p => rw [search_loop_success_step cfg w clean n i last p hr]; rfl
    | noMatch => rw [search_loop_noMatch_step cfg w clean n i last hr]; exact ih (i + 1) last
    | invalidPayload => rw [search_loop_invalid_step cfg w clean n i last hr]; exact ih (i + 1) last
    | errorCaught m => rw [search_loop_error_step cfg w clean n i last m hr]; exact ih (i + 1) m

lemma search_loop_head (cfg : Config) (w : World) (clean : List String)
    (fuel i : Nat) (last : String) :
    ((search_loop cfg w clean (fuel + 1) i last).2).head? =
      some (run_attempt cfg w i clean).2 := by
  cases hr : (run_attempt cfg w i clean).1 with
  | success p => rw [search_loop_success_step cfg w clean fuel i last p hr]; rfl
  | noMatch => rw [search_loop_noMatch_step cfg w clean fuel i last hr]; rfl
  | invalidPayload => rw [search_loop_invalid_step cfg w clean fuel i last hr]; rfl
  | errorCaught m => rw [search_loop_error_step cfg w clean fuel i last m hr]; rfl

lemma search_loop_len_pos (cfg : Config) (w : World) (clean : List String)
    (fuel i : Nat) (last : String) :
    1 ≤ (search_loop cfg w clean (fuel + 1) i last).2.length := by
  cases hr : (run_attempt cfg w i clean).1 with
  | success p => rw [search_loop_success_step cfg w clean fuel i last p hr]; simp
  | noMatch => rw [search_loop_noMatch_step cfg w clean fuel i last hr]; simp
  | invalidPayload => rw [search_loop_invalid_step cfg w clean fuel i last hr]; simp
  | errorCaught m => rw [search_loop_error_step cfg w clean fuel i last m hr]; simp

lemma search_loop_ok_success (cfg : Config) (w : World) (clean : List String) :
    ∀ fuel i last p, (search_loop cfg w clean fuel i last).1 = .ok p →
      ∃ j, (run_attempt cfg w j clean).1 = .success p := by
  intro fuel
  induction fuel with
  | zero => intro i last p h; simp [search_loop] at h
  | succ n ih =>
    intro i last p h
    cases hr : (run_attempt cfg w i clean).1 with
    | success q =>
      rw [search_loop_success_step cfg w clean n i last q hr] at h
      simp at h
      exact ⟨i, h ▸ hr⟩
    | noMatch =>
      rw [search_loop_noMatch_step cfg w clean n i last hr] at h
      exact ih (i + 1) last p h
    | invalidPayload =>
      rw [search_loop_invalid_step cfg w clean n i last hr] at h
      exact ih (i + 1) last p h
    | errorCaught m =>
      rw [search_loop_error_step cfg w clean n i last m hr] at h
      exact ih (i + 1) m p h

lemma download_image_ok (r : Except PyExn Bytes) (p : Bytes)
    (h : download_image r = .ok (some p)) : 1024 ≤ p.length := by
  cases r with
  | error e => simp [download_image] at h
  | ok content =>
    simp only [download_image] at h
    by_cases hc : content.length = 0 ∨ content.length < 1024
    · rw [if_pos hc] at h; simp at h
    · rw [if_neg hc] at h
      simp at h
      subst h
      push_neg at hc
      omega

lemma run_attempt_noMatch_fetch (cfg : Config) (w : World) (i : Nat)
    (clean : List String)
    (hf : (fetch_image_data cfg (adjust_tags clean i) (w.post i)).2 = .ok none) :
    (run_attempt cfg w i clean).1 = .noMatch := by
  simp only [run_attempt]
  rw [hf]

lemma run_attempt_noMatch_empty_url (cfg : Config) (w : World) (i : Nat)
    (clean : List String)
    (hf : (fetch_image_data cfg (adjust_tags clean i) (w.post i)).2 = .ok (some "")) :
    (run_attempt cfg w i clean).1 = .noMatch := by
  simp only [run_attempt]
  rw [hf]
  simp

lemma run_attempt_inline (cfg : Config) (w : World) (i : Nat)
    (clean : List String) (url : String)
    (hf : (fetch_image_data cfg (adjust_tags clean i) (w.post i)).2 = .ok (some url))
    (hne : url ≠ "") (hh : pyStartsWith url "http" = false) :
    (run_attempt cfg w i clean).1 =
      (if (strEncode url).length = 0 then .invalidPayload
        else .success (strEncode url)) := by
  have hh2 : ¬(pyStartsWith url "http" = true) := by simp [hh]
  simp only [run_attempt]
  rw [hf]
  simp only [if_neg hne, if_neg hh2]

lemma run_attempt_success_shape (cfg : Config) (w : World) (i : Nat)
    (clean : List String) (p : Bytes)
    (h : (run_attempt cfg w i clean).1 = .success p) :
    p ≠ [] ∧ (1024 ≤ p.length ∨
      ∃ url, p = strEncode url ∧ pyStartsWith url "http" = false) := by
  cases hf : (fetch_image_data cfg (adjust_tags clean i) (w.post i)).2 with
  | error e =>
    rw [run_attempt_error_fetch cfg w i clean e hf] at h
    simp at h
  | ok o =>
    cases o with
    | none =>
      rw [run_attempt_noMatch_fetch cfg w i clean hf] at h
      simp at h
    | some url =>
      by_cases he : url = ""
      · subst he
        rw [run_attempt_noMatch_empty_url cfg w i clean hf] at h
        simp at h
      · by_cases hh : pyStartsWith url "http" = true
        · cases hg : w.get i url with
          | error e =>
            rw [run_attempt_error_get cfg w i clean url e hf he hh hg] at h
            simp at h
          | ok content =>
            by_cases hbig : 1024 ≤ content.length
            · rw [run_attempt_success_download cfg w i clean url content hf he hh hg hbig] at h
              simp at h
              subst h
              refine ⟨?_, Or.inl hbig⟩
              intro hn
              rw [hn] at hbig
              simp at hbig
            · have hs : content.length < 1024 := by omega
              rw [run_attempt_invalid_download cfg w i clean url content hf he hh hg hs] at h
              simp at h
        · rw [Bool.not_eq_true] at hh
          rw [run_attempt_inline cfg w i clean url hf he hh] at h
          by_cases hb : (strEncode url).length = 0
          · rw [if_pos hb] at h
            simp at h
          · rw [if_neg hb] at h
            simp at h
            subst h
            exact ⟨fun hn => hb (by rw [hn]; rfl), Or.inr ⟨url, rfl, hh⟩⟩

lemma acg_run (cfg : Config) (w : World) (tags : List String)
    (h1 : tags ≠ []) (h2 : tags.length ≤ cfg.MAX_TAGS) :
    acg_image_search cfg w tags =
      search_loop cfg w (clean_tags tags) (cfg.MAX_RETRIES + 1) 0 "" := by
  unfold acg_image_search
  rw [if_neg h1, if_neg (by omega)]

lemma acg_validation_iff (cfg : Config) (w : World) (tags : List String) :
    ((acg_image_search cfg w tags).1).isValidationError = true ↔
      tags = [] ∨ cfg.MAX_TAGS < tags.length := by
  unfold acg_image_search
  by_cases h1 : tags = []
  · simp [h1, SearchResult.isValidationError]
  · by_cases h2 : cfg.MAX_TAGS < tags.length
    · simp [h1, h2, SearchResult.isValidationError]
    · simp [h1, h2, search_loop_no_validation cfg w (clean_tags tags) (cfg.MAX_RETRIES + 1) 0 ""]

lemma acg_ok_shape (cfg : Config) (w : World) (tags : List String) (p : Bytes)
    (h : (acg_image_search cfg w tags).1 = .ok p) :
    ∃ j, (run_attempt cfg w j (clean_tags tags)).1 = .success p := by
  unfold acg_image_search at h
  by_cases h1 : tags = []
  · rw [if_pos h1] at h; simp at h
  · rw [if_neg h1] at h
    by_cases h2 : cfg.MAX_TAGS < tags.length
    · rw [if_pos h2] at h; simp at h
    · rw [if_neg h2] at h
      exact search_loop_ok_success cfg w (clean_tags tags) (cfg.MAX_RETRIES + 1) 0 "" p h

/-! Claim theorems. -/

/-- C1: the claim states that when tag validation passes and all
`MAX_RETRIES + 1` attempts end without a valid payload, the function
still returns a bytes value built from the last recorded error.  The
code does not: the retry loop (src/__init__.py lines 155-184) has no
`return` after it, so when every attempt fails — here every POST raises
a network error — the function falls off the loop and implicitly
returns Python `None`: not bytes, and in particular not the recorded
`last_error` message encoded as bytes. -/
theorem C1_exhaustion_returns_python_none :
    (acg_image_search cfgDefault wAllErr ["a"]).1 = .noneReturned ∧
    (acg_image_search cfgDefault wAllErr ["a"]).1 ≠
      .ok (strEncode "图片搜索请求失败: connection refused") := by
  exact ⟨by decide, by decide⟩

/-- C2 counterexample: the input `["  "]` is a non-empty original list
(so the `if not tags` guard does not fire) whose trimmed tag set is
empty; the claim says this call fails with a `ValidationError`, but the
code proceeds into the retry loop without raising. -/
theorem C2_counterexample :
    clean_tags ["  "] = [] ∧
    ((acg_image_search cfgDefault wNoMatch ["  "]).1).isValidationError = false := by
  exact ⟨by decide, by decide⟩

/-- C2 (amended): `acg_image_search` fails with `ValueError` exactly
when the original, untrimmed tag list is empty or its original count
exceeds `MAX_TAGS` (both checks run before trimming; an all-whitespace
non-empty list passes validation); otherwise the first attempt queries
exactly the trimmed input with empty entries dropped, in the original
order. -/
theorem C2_validation_and_first_attempt (cfg : Config) (w : World)
    (tags : List String) :
    (((acg_image_search cfg w tags).1).isValidationError = true ↔
      tags = [] ∨ cfg.MAX_TAGS < tags.length) ∧
    (tags ≠ [] → tags.length ≤ cfg.MAX_TAGS →
      (((acg_image_search cfg w tags).2.map fun t => t.postReq.tag).head? =
        some (clean_tags tags))) := by
  refine ⟨acg_validation_iff cfg w tags, fun h1 h2 => ?_⟩
  rw [acg_run cfg w tags h1 h2, List.head?_map,
    search_loop_head cfg w (clean_tags tags) cfg.MAX_RETRIES 0 ""]
  simp [run_attempt_postReq, query_request, adjust_tags_zero]

/-- Witness for C2: concrete instantiation at tags `["a", " b "]` with
the no-match world; validation passes and the first query carries the
trimmed tags. -/
theorem C2_validation_and_first_attempt_witness :
    (((acg_image_search cfgDefault wNoMatch ["a", " b "]).1).isValidationError = true ↔
      (["a", " b "] : List String) = [] ∨
        cfgDefault.MAX_TAGS < (["a", " b "] : List String).length) ∧
    (((acg_image_search cfgDefault wNoMatch ["a", " b "]).2.map fun t => t.postReq.tag).head? =
      some (clean_tags ["a", " b "])) :=
  ⟨(C2_validation_and_first_attempt cfgDefault wNoMatch ["a", " b "]).1,
    (C2_validation_and_first_attempt cfgDefault wNoMatch ["a", " b "]).2
      (by decide) (by decide)⟩

/-- C3: `adjust_tags` at attempt 0 returns the list unchanged; for
attempt `k ≥ 1` on a list with more than one tag it keeps the leading
`max 1 (len - k)` tags; a single-tag list is returned unchanged for
every `k`; and on any non-empty input the result is a non-empty prefix
of the input. -/
theorem C3_adjust_tags_relaxation :
    (∀ tags : List String, adjust_tags tags 0 = tags) ∧
    (∀ (tags : List String) (k : Nat), 1 ≤ k → 1 < tags.length →
      adjust_tags tags k = tags.take (max 1 (tags.length - k))) ∧
    (∀ (t : String) (k : Nat), adjust_tags [t] k = [t]) ∧
    (∀ (tags : List String) (k : Nat), tags ≠ [] →
      adjust_tags tags k ≠ [] ∧ adjust_tags tags k <+: tags) := by
  refine ⟨adjust_tags_zero, fun tags k hk hlen => ?_, fun t k => ?_,
    fun tags k hne => ?_⟩
  · unfold adjust_tags
    rw [if_neg (by omega)]
  · unfold adjust_tags
    rw [if_pos (by simp)]
  · unfold adjust_tags
    by_cases h : tags.length ≤ 1
    · rw [if_pos h]
      exact ⟨hne, ⟨[], by simp⟩⟩
    · rw [if_neg h]
      constructor
      · intro hnil
        have hlen0 : (tags.take (max 1 (tags.length - k))).length = 0 := by
          rw [hnil]; rfl
        rw [List.length_take] at hlen0
        have h1 : 1 ≤ max 1 (tags.length - k) := le_max_left 1 _
        omega
      · exact ⟨tags.drop (max 1 (tags.length - k)), List.take_append_drop _ _⟩

/-- Witness for C3: concrete instantiations of all four parts. -/
theorem C3_adjust_tags_relaxation_witness :
    adjust_tags ["a", "b", "c"] 0 = ["a", "b", "c"] ∧
    adjust_tags ["a", "b", "c"] 2 =
      (["a", "b", "c"].take (max 1 ((["a", "b", "c"] : List String).length - 2))) ∧
    adjust_tags ["a"] 7 = ["a"] ∧
    (adjust_tags ["a", "b"] 9 ≠ [] ∧ adjust_tags ["a", "b"] 9 <+: ["a", "b"]) :=
  ⟨C3_adjust_tags_relaxation.1 ["a", "b", "c"],
    C3_adjust_tags_relaxation.2.1 ["a", "b", "c"] 2 (by decide) (by decide),
    C3_adjust_tags_relaxation.2.2.1 "a" 7,
    C3_adjust_tags_relaxation.2.2.2 ["a", "b"] 9 (by decide)⟩

/-- C4: if every search POST yields a no-match response (absent or
empty `data` array), a call that passes validation performs exactly
`MAX_RETRIES + 1` attempts (the trace length) and then terminates in
the exhausted state — the loop ends and no further query is issued. -/
theorem C4_exhausts_after_max_retries_plus_one (cfg : Config) (w : World)
    (tags : List String)
    (hall : ∀ i p, respNoMatch (w.post i p) = true)
    (h1 : tags ≠ []) (h2 : tags.length ≤ cfg.MAX_TAGS) :
    (acg_image_search cfg w tags).1 = .noneReturned ∧
    (acg_image_search cfg w tags).2.length = cfg.MAX_RETRIES + 1 := by
  have hall2 : ∀ i, (run_attempt cfg w i (clean_tags tags)).1 = .noMatch :=
    fun i => run_attempt_noMatch cfg w i (clean_tags tags) (hall i _)
  rw [acg_run cfg w tags h1 h2]
  exact search_loop_all_noMatch cfg w (clean_tags tags) hall2 (cfg.MAX_RETRIES + 1) 0 ""

/-- Witness for C4: the no-match world with default configuration makes
exactly 4 attempts. -/
theorem C4_exhausts_witness :
    (acg_image_search cfgDefault wNoMatch ["a"]).1 = .noneReturned ∧
    (acg_image_search cfgDefault wNoMatch ["a"]).2.length = cfgDefault.MAX_RETRIES + 1 :=
  C4_exhausts_after_max_retries_plus_one cfgDefault wNoMatch ["a"]
    (fun _ _ => rfl) (by decide) (by decide)

/-- C5: if attempt 0's POST resolves a locator and its GET fetches a
valid (≥ 1024-byte) payload, the call returns exactly that payload and
the trace is a single attempt — one POST and one GET, nothing more. -/
theorem C5_first_attempt_success (cfg : Config) (w : World) (tags : List String)
    (resp : ApiResponse) (item : ApiItem) (rest : List ApiItem)
    (url : String) (content : Bytes)
    (h1 : tags ≠ []) (h2 : tags.length ≤ cfg.MAX_TAGS)
    (hpost : w.post 0 (query_request cfg (clean_tags tags)) = .ok resp)
    (hdata : resp.data = some (item :: rest))
    (hurl : item.urlsOriginal = some url)
    (hne : url ≠ "") (hhttp : pyStartsWith url "http" = true)
    (hget : w.get 0 url = .ok content) (hbig : 1024 ≤ content.length) :
    acg_image_search cfg w tags =
      (.ok content,
        [{ postReq := query_request cfg (clean_tags tags), getReq := some url }]) := by
  have hz : adjust_tags (clean_tags tags) 0 = clean_tags tags := adjust_tags_zero _
  have hfetch : (fetch_image_data cfg (adjust_tags (clean_tags tags) 0) (w.post 0)).2 =
      .ok (some url) := by
    rw [hz]
    exact fetch_image_data_some cfg (clean_tags tags) (w.post 0) resp item rest url
      hpost hdata hurl
  have hra := run_attempt_success_download cfg w 0 (clean_tags tags) url content
    hfetch hne hhttp hget hbig
  rw [acg_run cfg w tags h1 h2,
    search_loop_success_step cfg w (clean_tags tags) cfg.MAX_RETRIES 0 "" content
      (by rw [hra]),
    hra, hz]

/-- Witness for C5: in the world that always succeeds, a single attempt
returns the 1024-byte image. -/
theorem C5_first_attempt_success_witness :
    acg_image_search cfgDefault wGood ["a"] =
      (.ok bigImage,
        [{ postReq := query_request cfgDefault (clean_tags ["a"]),
            getReq := some "http://img.example/a.jpg" }]) :=
  C5_first_attempt_success cfgDefault wGood ["a"]
    { data := some [{ urlsOriginal := some "http://img.example/a.jpg" }] }
    { urlsOriginal := some "http://img.example/a.jpg" } []
    "http://img.example/a.jpg" bigImage
    (by decide) (by decide) rfl rfl rfl (by decide) (by decide) rfl (by decide)

/-- C6: a fetched payload with empty content or fewer than 1024 bytes
is classified `InvalidPayload` by `download_image` (neither a success
nor an error); an attempt whose GET returns such content has outcome
`InvalidPayload`; and when retry budget remains the loop then proceeds
to exactly the next attempt — one fuel slot consumed, the continuation
starting at attempt `i + 1` and (having budget) executing at least one
attempt. -/
theorem C6_small_payload_invalid :
    (∀ content : Bytes, content.length < 1024 →
      download_image (.ok content) = .ok none) ∧
    (∀ (cfg : Config) (w : World) (i : Nat) (clean : List String)
        (url : String) (content : Bytes),
      (fetch_image_data cfg (adjust_tags clean i) (w.post i)).2 = .ok (some url) →
      url ≠ "" → pyStartsWith url "http" = true →
      w.get i url = .ok content → content.length < 1024 →
      (run_attempt cfg w i clean).1 = .invalidPayload) ∧
    (∀ (cfg : Config) (w : World) (clean : List String) (fuel i : Nat) (last : String),
      (run_attempt cfg w i clean).1 = .invalidPayload →
      search_loop cfg w clean (fuel + 1) i last =
        ((search_loop cfg w clean fuel (i + 1) last).1,
          (run_attempt cfg w i clean).2 ::
            (search_loop cfg w clean fuel (i + 1) last).2)) ∧
    (∀ (cfg : Config) (w : World) (clean : List String) (fuel i : Nat) (last : String),
      1 ≤ (search_loop cfg w clean (fuel + 1) i last).2.length) := by
  refine ⟨fun content hlen => ?_,
    fun cfg w i clean url content hf hne hh hg hs =>
      run_attempt_invalid_download cfg w i clean url content hf hne hh hg hs,
    fun cfg w clean fuel i last h => search_loop_invalid_step cfg w clean fuel i last h,
    fun cfg w clean fuel i last => search_loop_len_pos cfg w clean fuel i last⟩
  simp only [download_image]
  rw [if_pos (Or.inr hlen)]

/-- Witness for C6: the world whose GET returns 10 bytes. -/
theorem C6_small_payload_invalid_witness :
    download_image (.ok (List.replicate 10 1)) = .ok none ∧
    (run_attempt cfgDefault wSmall 0 ["a"]).1 = .invalidPayload ∧
    search_loop cfgDefault wSmall ["a"] (1 + 1) 0 "" =
      ((search_loop cfgDefault wSmall ["a"] 1 (0 + 1) "").1,
        (run_attempt cfgDefault wSmall 0 ["a"]).2 ::
          (search_loop cfgDefault wSmall ["a"] 1 (0 + 1) "").2) ∧
    1 ≤ (search_loop cfgDefault wSmall ["a"] (0 + 1) 0 "").2.length :=
  ⟨C6_small_payload_invalid.1 (List.replicate 10 1) (by decide),
    C6_small_payload_invalid.2.1 cfgDefault wSmall 0 ["a"] "http://img.example/a.jpg"
      (List.replicate 10 1) rfl (by decide) (by decide) rfl (by decide),
    C6_small_payload_invalid.2.2.1 cfgDefault wSmall ["a"] 1 0 "" (by decide),
    C6_small_payload_invalid.2.2.2 cfgDefault wSmall ["a"] 0 0 ""⟩

/-- C7: a network-level failure (`httpx.RequestError`) or HTTP-status
failure (`httpx.HTTPStatusError`) of the POST — or any raised error of
the GET — makes attempt `i`'s outcome the caught error with its
descriptive message; the loop records that message as the new
`last_error` and proceeds to attempt `i + 1`, consuming exactly one
slot of the retry budget and never aborting early. -/
theorem C7_transient_failure_retries :
    (∀ (cfg : Config) (w : World) (i : Nat) (clean : List String) (m : String),
      w.post i (query_request cfg (adjust_tags clean i)) = .error (.requestError m) →
      (run_attempt cfg w i clean).1 = .errorCaught ("图片搜索请求失败: " ++ m)) ∧
    (∀ (cfg : Config) (w : World) (i : Nat) (clean : List String) (code : Nat),
      w.post i (query_request cfg (adjust_tags clean i)) = .error (.httpStatusError code) →
      (run_attempt cfg w i clean).1 = .errorCaught ("图片搜索HTTP错误: " ++ toString code)) ∧
    (∀ (cfg : Config) (w : World) (i : Nat) (clean : List String) (url : String) (e : PyExn),
      (fetch_image_data cfg (adjust_tags clean i) (w.post i)).2 = .ok (some url) →
      url ≠ "" → pyStartsWith url "http" = true →
      w.get i url = .error e →
      (run_attempt cfg w i clean).1 = .errorCaught (caught_message e)) ∧
    (∀ (cfg : Config) (w : World) (clean : List String) (fuel i : Nat) (last m : String),
      (run_attempt cfg w i clean).1 = .errorCaught m →
      search_loop cfg w clean (fuel + 1) i last =
        ((search_loop cfg w clean fuel (i + 1) m).1,
          (run_attempt cfg w i clean).2 ::
            (search_loop cfg w clean fuel (i + 1) m).2)) := by
  refine ⟨fun cfg w i clean m hp => ?_, fun cfg w i clean code hp => ?_,
    fun cfg w i clean url e hf hne hh hg =>
      run_attempt_error_get cfg w i clean url e hf hne hh hg,
    fun cfg w clean fuel i last m h =>
      search_loop_error_step cfg w clean fuel i last m h⟩
  · exact run_attempt_error_fetch cfg w i clean _
      (fetch_image_data_error_post cfg _ (w.post i) _ hp)
  · exact run_attempt_error_fetch cfg w i clean _
      (fetch_image_data_error_post cfg _ (w.post i) _ hp)

/-- Witness for C7: failing-POST, failing-status and failing-GET worlds,
and the loop stepping from attempt 0 to attempt 1 with the recorded
message. -/
theorem C7_transient_failure_retries_witness :
    (run_attempt cfgDefault wAllErr 0 ["a"]).1 =
      .errorCaught ("图片搜索请求失败: " ++ "connection refused") ∧
    (run_attempt cfgDefault wHttpErr 0 ["a"]).1 =
      .errorCaught ("图片搜索HTTP错误: " ++ toString 404) ∧
    (run_attempt cfgDefault wGetErr 0 ["a"]).1 =
      .errorCaught (caught_message (.requestError "read timeout")) ∧
    search_loop cfgDefault wAllErr ["a"] (1 + 1) 0 "" =
      ((search_loop cfgDefault wAllErr ["a"] 1 (0 + 1) "图片搜索请求失败: connection refused").1,
        (run_attempt cfgDefault wAllErr 0 ["a"]).2 ::
          (search_loop cfgDefault wAllErr ["a"] 1 (0 + 1) "图片搜索请求失败: connection refused").2) :=
  ⟨C7_transient_failure_retries.1 cfgDefault wAllErr 0 ["a"] "connection refused" rfl,
    C7_transient_failure_retries.2.1 cfgDefault wHttpErr 0 ["a"] 404 rfl,
    C7_transient_failure_retries.2.2.1 cfgDefault wGetErr 0 ["a"]
      "http://img.example/a.jpg" (.requestError "read timeout")
      rfl (by decide) (by decide) rfl,
    C7_transient_failure_retries.2.2.2 cfgDefault wAllErr ["a"] 1 0 ""
      "图片搜索请求失败: connection refused" (by decide)⟩

/-- C8 counterexample: with `MAX_RETRIES = 1` and tags `["a", "b"]`,
every response has a non-empty `data` array whose first item lacks
`urls.original`.  Attempt 0's outcome is the caught data-parse error,
yet the code issues a second query with the relaxed, different tag
list `["a"]` — contradicting the part of the claim that says such an
error is not retried with different tags. -/
theorem C8_counterexample :
    (run_attempt cfgTwoAttempts wBadShape 0 ["a", "b"]).1 =
      .errorCaught "图片数据解析错误: original" ∧
    ((acg_image_search cfgTwoAttempts wBadShape ["a", "b"]).2.map
        fun t => t.postReq.tag) = [["a", "b"], ["a"]] ∧
    (["a"] : List String) ≠ ["a", "b"] := by
  exact ⟨by decide, by decide, by decide⟩

/-- C8 (amended): a non-empty result whose first item structurally
lacks `urls.original` makes `fetch_image_data` raise `KeyError`; the
attempt surfaces as the caught data-parse error with a descriptive
detail, recorded as `last_error`; and the orchestrator then proceeds
like after any other non-success outcome — the next attempt is issued
with the relaxation-adjusted tag list for index `i + 1`, which may
differ from attempt `i`'s tags. -/
theorem C8_data_shape_error (cfg : Config) (w : World) (i : Nat)
    (clean : List String) (resp : ApiResponse) (item : ApiItem) (rest : List ApiItem)
    (hp : w.post i (query_request cfg (adjust_tags clean i)) = .ok resp)
    (hd : resp.data = some (item :: rest))
    (hu : item.urlsOriginal = none) :
    (fetch_image_data cfg (adjust_tags clean i) (w.post i)).2 =
      .error (.keyError "original") ∧
    (run_attempt cfg w i clean).1 = .errorCaught ("图片数据解析错误: " ++ "original") ∧
    (∀ (fuel : Nat) (last : String),
      search_loop cfg w clean (fuel + 1) i last =
        ((search_loop cfg w clean fuel (i + 1) ("图片数据解析错误: " ++ "original")).1,
          (run_attempt cfg w i clean).2 ::
            (search_loop cfg w clean fuel (i + 1) ("图片数据解析错误: " ++ "original")).2)) ∧
    (run_attempt cfg w (i + 1) clean).2.postReq.tag = adjust_tags clean (i + 1) := by
  have hf := fetch_image_data_keyError cfg (adjust_tags clean i) (w.post i)
    resp item rest hp hd hu
  have hra := run_attempt_error_fetch cfg w i clean (.keyError "original") hf
  exact ⟨hf, hra,
    fun fuel last => search_loop_error_step cfg w clean fuel i last _ hra,
    rfl⟩

/-- Witness for C8 (amended): the bad-shape world, attempt 0, with the
loop step instantiated at one remaining retry. -/
theorem C8_data_shape_error_witness :
    (fetch_image_data cfgTwoAttempts (adjust_tags ["a", "b"] 0) (wBadShape.post 0)).2 =
      .error (.keyError "original") ∧
    (run_attempt cfgTwoAttempts wBadShape 0 ["a", "b"]).1 =
      .errorCaught ("图片数据解析错误: " ++ "original") ∧
    search_loop cfgTwoAttempts wBadShape ["a", "b"] (1 + 1) 0 "" =
      ((search_loop cfgTwoAttempts wBadShape ["a", "b"] 1 (0 + 1)
          ("图片数据解析错误: " ++ "original")).1,
        (run_attempt cfgTwoAttempts wBadShape 0 ["a", "b"]).2 ::
          (search_loop cfgTwoAttempts wBadShape ["a", "b"] 1 (0 + 1)
            ("图片数据解析错误: " ++ "original")).2) ∧
    (run_attempt cfgTwoAttempts wBadShape (0 + 1) ["a", "b"]).2.postReq.tag =
      adjust_tags ["a", "b"] (0 + 1) := by
  have h := C8_data_shape_error cfgTwoAttempts wBadShape 0 ["a", "b"]
    { data := some [{ urlsOriginal := none }] } { urlsOriginal := none } []
    rfl rfl rfl
  exact ⟨h.1, h.2.1, h.2.2.1 1 "", h.2.2.2⟩

/-- C9: each query attempt sends exactly one POST — the one request the
attempt's trace records — whose body has `r18 = 2` when the mature flag
is enabled and `0` otherwise, `num = 1`, the attempt's tag list and
`size = "original"`; an absent or empty `data` array yields the
no-match result (`None`, not an error); a non-empty array yields the
first element's `urls.original`. -/
theorem C9_query_client_contract :
    (∀ (cfg : Config) (tags : List String)
        (post : SearchParams → Except PyExn ApiResponse),
      (fetch_image_data cfg tags post).1 =
        { r18 := if cfg.R18_ENABLED then 2 else 0, num := 1, tag := tags, size := "original" }) ∧
    (∀ (cfg : Config) (w : World) (i : Nat) (clean : List String),
      (run_attempt cfg w i clean).2.postReq = query_request cfg (adjust_tags clean i)) ∧
    (∀ (cfg : Config) (tags : List String)
        (post : SearchParams → Except PyExn ApiResponse),
      respNoMatch (post (query_request cfg tags)) = true →
      (fetch_image_data cfg tags post).2 = .ok none) ∧
    (∀ (cfg : Config) (tags : List String)
        (post : SearchParams → Except PyExn ApiResponse) (resp : ApiResponse)
        (item : ApiItem) (rest : List ApiItem) (url : String),
      post (query_request cfg tags) = .ok resp →
      resp.data = some (item :: rest) →
      item.urlsOriginal = some url →
      (fetch_image_data cfg tags post).2 = .ok (some url)) :=
  ⟨fun _ _ _ => rfl,
    fun cfg w i clean => run_attempt_postReq cfg w i clean,
    fun cfg tags post h => fetch_image_data_noMatch cfg tags post h,
    fun cfg tags post resp item rest url hp hd hu =>
      fetch_image_data_some cfg tags post resp item rest url hp hd hu⟩

/-- Witness for C9: concrete instantiations of all four parts. -/
theorem C9_query_client_contract_witness :
    (fetch_image_data cfgDefault ["a"] (wNoMatch.post 0)).1 =
      { r18 := if cfgDefault.R18_ENABLED then 2 else 0, num := 1,
          tag := ["a"], size := "original" } ∧
    (run_attempt cfgDefault wGood 0 ["a"]).2.postReq =
      query_request cfgDefault (adjust_tags ["a"] 0) ∧
    (fetch_image_data cfgDefault ["a"] (wNoMatch.post 0)).2 = .ok none ∧
    (fetch_image_data cfgDefault ["a"] (wGood.post 0)).2 =
      .ok (some "http://img.example/a.jpg") :=
  ⟨C9_query_client_contract.1 cfgDefault ["a"] (wNoMatch.post 0),
    C9_query_client_contract.2.1 cfgDefault wGood 0 ["a"],
    C9_query_client_contract.2.2.1 cfgDefault ["a"] (wNoMatch.post 0) rfl,
    C9_query_client_contract.2.2.2 cfgDefault ["a"] (wGood.post 0)
      { data := some [{ urlsOriginal := some "http://img.example/a.jpg" }] }
      { urlsOriginal := some "http://img.example/a.jpg" } []
      "http://img.example/a.jpg" rfl rfl rfl⟩

/-- C10 counterexample: the locator `inline-token` does not start with
`http`, so the code returns `url.encode()` — 12 bytes — as a successful
payload of `acg_image_search`: a returned payload far below the
1024-byte minimum, contradicting the claimed invariant for payloads
produced from non-network locators. -/
theorem C10_counterexample :
    (acg_image_search cfgDefault wInline ["a"]).1 = .ok (strEncode "inline-token") ∧
    (strEncode "inline-token").length < 1024 := by
  exact ⟨by decide, by decide⟩

/-- C10 (amended): every payload `download_image` accepts has at least
1024 bytes; and every successful result of `acg_image_search` is
non-empty and either has at least 1024 bytes or is the verbatim UTF-8
encoding of a locator that does not start with `http` — inline payloads
carry no minimum-size guarantee. -/
theorem C10_success_payload_size :
    (∀ (r : Except PyExn Bytes) (p : Bytes),
      download_image r = .ok (some p) → 1024 ≤ p.length) ∧
    (∀ (cfg : Config) (w : World) (tags : List String) (p : Bytes),
      (acg_image_search cfg w tags).1 = .ok p →
      p ≠ [] ∧ (1024 ≤ p.length ∨
        ∃ url, p = strEncode url ∧ pyStartsWith url "http" = false)) := by
  refine ⟨download_image_ok, fun cfg w tags p h => ?_⟩
  obtain ⟨j, hj⟩ := acg_ok_shape cfg w tags p h
  exact run_attempt_success_shape cfg w j (clean_tags tags) p hj

/-- Witness for C10 (amended): the 1024-byte payload of the
always-succeeding world. -/
theorem C10_success_payload_size_witness :
    1024 ≤ bigImage.length ∧
    (bigImage ≠ [] ∧ (1024 ≤ bigImage.length ∨
      ∃ url, bigImage = strEncode url ∧ pyStartsWith url "http" = false)) :=
  ⟨C10_success_payload_size.1 (.ok bigImage) bigImage rfl,
    C10_success_payload_size.2 cfgDefault wGood ["a"] bigImage (by decide)⟩

end AcgSearch
